import Mathlib

/-!
Verification development for the PDF offer-assembly pipeline of the
Greenkack/Dangel solar-offer application (source file `pdf_generator.py`).

The Python functions under scrutiny are shallowly embedded as executable
Lean definitions:

* Python values that flow through the pipeline (entries of the
  `analysis_results` dict, customer fields, admin settings) are modelled by
  the inductive type `PyVal`.  Python `float`s are modelled by `PyRat`, an
  unnormalised rational number (exact value of the underlying IEEE double;
  every float literal appearing in the claims, such as `3.25` or `0.0`, is
  exactly representable, and Python's fixed-point string formatting is
  correctly rounded with ties-to-even, so rational semantics is faithful).
* Python dicts are modelled as functions `String → Option PyVal`
  (resp. `String → Option String` for the translation map, whose values
  are strings throughout the repository).
* Code that can raise is modelled with `Option` (`none` = exception).
* External collaborators (ReportLab paragraphs/styles, pypdf readers and
  writers, the filesystem, the wall clock) are modelled abstractly: a
  `Paragraph(text, STYLES[name])` becomes a `Para` record holding the text
  and the style name, PDF parsing/serialisation become function parameters,
  and `datetime.now()` results are passed in as parameters.
-/

/-! ## Python value model -/

/-- An unnormalised rational number `num / den`, used to model the exact
value of a Python `float`.  All values constructed by the embedding have
positive denominator. -/
structure PyRat where
  num : Int
  den : Nat
deriving DecidableEq

/-- Model of the Python values that flow through the PDF pipeline:
`None`, `int`, `float` (finite / NaN / infinite), `str`, `list`, `bytes`. -/
inductive PyVal where
  | vNone : PyVal
  | vInt (i : Int) : PyVal
  | vFloat (q : PyRat) : PyVal
  | vNaN : PyVal
  | vInf : PyVal
  | vStr (s : String) : PyVal
  | vList (xs : List PyVal) : PyVal
  | vBytes (bs : List Nat) : PyVal

open PyVal

/-- Python truthiness (`bool(v)`) for the modelled values. -/
def pyTruthy : PyVal → Bool
  | vNone => false
  | vInt i => i != 0
  | vFloat q => q.num != 0
  | vNaN => true
  | vInf => true
  | vStr s => !(s.data.isEmpty)
  | vList xs => !xs.isEmpty
  | vBytes bs => !bs.isEmpty

/-- `isinstance(v, bytes)`. -/
def pyIsBytes : PyVal → Bool
  | vBytes _ => true
  | _ => false

/-- `math.isinf(v)`. -/
def pyIsInf : PyVal → Bool
  | vInf => true
  | _ => false

/-- `isinstance(v, (int, float))` (NaN and infinities are floats). -/
def pyIsNumeric : PyVal → Bool
  | vInt _ => true
  | vFloat _ => true
  | vNaN => true
  | vInf => true
  | _ => false

/-- `len(v)` for the Python values that support it; `none` models the
`TypeError` raised by `len` on other values. -/
def pyLen : PyVal → Option Nat
  | vStr s => some s.data.length
  | vList xs => some xs.length
  | vBytes bs => some bs.length
  | _ => none

/-- `v[1:]` for the sliceable values (only ever applied to values whose
`len` succeeded). -/
def pySliceFrom1 : PyVal → PyVal
  | vStr s => vStr (String.mk (s.data.drop 1))
  | vList xs => vList (xs.drop 1)
  | vBytes bs => vBytes (bs.drop 1)
  | v => v

/-- Python dicts holding arbitrary values (e.g. `analysis_results`). -/
abbrev PyDict : Type := String → Option PyVal

/-- `d[k] = v` (dict item assignment). -/
def dictSet (d : PyDict) (k : String) (v : PyVal) : PyDict :=
  fun k2 => if k2 = k then some v else d k2

/-- The translation map `texts`: a dict whose values are strings. -/
abbrev Texts : Type := String → Option String

/-! ## Character and string helpers (models of the Python `str` methods) -/

/-- The decimal digit characters (used by our model of number formatting). -/
def digitChar10 (d : Nat) : Char :=
  if d = 0 then '0' else if d = 1 then '1' else if d = 2 then '2'
  else if d = 3 then '3' else if d = 4 then '4' else if d = 5 then '5'
  else if d = 6 then '6' else if d = 7 then '7' else if d = 8 then '8'
  else if d = 9 then '9' else '*'

def digitVal? (c : Char) : Option Nat :=
  if c = '0' then some 0 else if c = '1' then some 1 else if c = '2' then some 2
  else if c = '3' then some 3 else if c = '4' then some 4 else if c = '5' then some 5
  else if c = '6' then some 6 else if c = '7' then some 7 else if c = '8' then some 8
  else if c = '9' then some 9 else none

/-- Little-endian decimal digits of `n`, computed with explicit fuel so that
the definition is structurally recursive (kernel-reducible). -/
def natDigitsAux : Nat → Nat → List Nat
  | 0, _ => []
  | _ + 1, 0 => []
  | fuel + 1, n + 1 => (n + 1) % 10 :: natDigitsAux fuel ((n + 1) / 10)

/-- Big-endian digit characters of a natural number (`str(n)` for `n : Nat`). -/
def natChars (n : Nat) : List Char :=
  if n = 0 then ['0'] else ((natDigitsAux n n).map digitChar10).reverse

/-- `str(n)` for a Python non-negative integer. -/
def natToStr (n : Nat) : String := String.mk (natChars n)

/-- `str(i)` for a Python integer. -/
def intToStr (i : Int) : String :=
  if i < 0 then String.mk ('-' :: natChars i.natAbs) else String.mk (natChars i.natAbs)

/-- Whitespace as stripped by Python's `str.strip()` with no argument. -/
def isPyWs (c : Char) : Bool :=
  c = ' ' || c = '\t' || c = '\n' || c = '\x0d' || c = '\x0b' || c = '\x0c'

/-- `str.strip()` on a character list. -/
def pyStripChars (cs : List Char) : List Char :=
  ((cs.dropWhile isPyWs).reverse.dropWhile isPyWs).reverse

/-- `str.strip()`. -/
def pyStrip (s : String) : String := String.mk (pyStripChars s.data)

/-- Parse a non-empty all-digit character list as a natural number. -/
def parseNatChars (cs : List Char) : Option Nat :=
  if cs.isEmpty then none
  else if cs.all (fun c => (digitVal? c).isSome) then
    some (cs.foldl (fun acc c => acc * 10 + (digitVal? c).getD 0) 0)
  else none

/-- Model of Python `int(s)` on strings: optional surrounding whitespace,
optional sign, decimal digits.  (Digit-group underscores are not modelled;
no modelled call site produces them.) -/
def pyIntOfChars2 : List Char → Option Int
  | [] => none
  | c :: rest =>
    if c = '-' then (parseNatChars rest).map (fun n : Nat => -(n : Int))
    else if c = '+' then (parseNatChars rest).map (fun n : Nat => (n : Int))
    else (parseNatChars (c :: rest)).map (fun n : Nat => (n : Int))

def pyIntOfStr (s : String) : Option Int :=
  pyIntOfChars2 (pyStripChars s.data)

/-- `needle.isPrefixOf haystack` on characters, written out so all proofs
stay inside this development. -/
def charsHavePre : List Char → List Char → Bool
  | [], _ => true
  | _ :: _, [] => false
  | p :: ps, c :: cs => p = c && charsHavePre ps cs

/-- One fuelled step list for `str.replace`: replaces non-overlapping
occurrences of `pat` left to right, as Python does. -/
def replaceCharsAux (pat rep : List Char) : Nat → List Char → List Char
  | 0, cs => cs
  | _ + 1, [] => []
  | fuel + 1, c :: cs =>
    if charsHavePre pat (c :: cs) then
      rep ++ replaceCharsAux pat rep fuel ((c :: cs).drop pat.length)
    else
      c :: replaceCharsAux pat rep fuel cs

/-- `s.replace(pat, rep)` (for the non-empty patterns the source uses). -/
def pyReplace (s pat rep : String) : String :=
  String.mk (replaceCharsAux pat.data rep.data s.data.length s.data)

/-- Index of the last occurrence of `c` in `cs` (Python `str.rfind`); only
used by the source when the character is known to be present. -/
def lastIdxOf (cs : List Char) (c : Char) : Nat :=
  cs.length - 1 - List.indexOf c cs.reverse

/-- Python `str.title()` for the ASCII keys the source humanizes: the first
letter of every alphabetic run is upper-cased, the rest lower-cased. -/
def pyTitleAux : Bool → List Char → List Char
  | _, [] => []
  | prevCased, c :: cs =>
    if c.isAlpha then
      (if prevCased then c.toLower else c.toUpper) :: pyTitleAux true cs
    else
      c :: pyTitleAux false cs

def pyTitle (s : String) : String := String.mk (pyTitleAux false s.data)

/-! ## Number formatting (models of Python `format`) -/

/-- Floor of an unnormalised rational with positive denominator. -/
def pyRatFloor (q : PyRat) : Int :=
  if 0 ≤ q.num then Int.ofNat (q.num.natAbs / q.den)
  else - Int.ofNat ((q.num.natAbs + q.den - 1) / q.den)

/-- Round to the nearest integer, ties to the even neighbour — the rounding
Python's correctly-rounded float formatting applies to the exact value. -/
def roundHalfEven (q : PyRat) : Int :=
  let n := pyRatFloor q
  let r : Int := q.num - n * (q.den : Int)
  if 2 * r < (q.den : Int) then n
  else if (q.den : Int) < 2 * r then n + 1
  else if n % 2 = 0 then n else n + 1

/-- `q * 10 ^ p`. -/
def scalePow10 (q : PyRat) (p : Nat) : PyRat := ⟨q.num * ((10 ^ p : Nat) : Int), q.den⟩

/-- `q < 0` (positive denominator assumed, as everywhere in the model). -/
def pyRatNeg (q : PyRat) : Bool := q.num < 0

def leftPadZeros (width : Nat) (cs : List Char) : List Char :=
  List.replicate (width - cs.length) '0' ++ cs

/-- `format(q, ".<prec>f")` without thousands grouping: fixed-point decimal
with `prec` fractional digits, correctly rounded, ties to even. -/
def formatFixed (q : PyRat) (prec : Nat) : String :=
  let m := roundHalfEven (scalePow10 q prec)
  let a := m.natAbs
  let ip := a / 10 ^ prec
  let fp := a % 10 ^ prec
  let sign : List Char := if pyRatNeg q then ['-'] else []
  let frac : List Char := if prec = 0 then [] else '.' :: leftPadZeros prec (natChars fp)
  String.mk (sign ++ natChars ip ++ frac)

/-- Insert the `,` thousands separators into a little-endian digit stream
(`i` counts digits already emitted). -/
def insertGroupSepsLE : List Char → Nat → List Char
  | [], _ => []
  | c :: cs, i =>
    if i ≠ 0 ∧ i % 3 = 0 then ',' :: c :: insertGroupSepsLE cs (i + 1)
    else c :: insertGroupSepsLE cs (i + 1)

/-- Decimal digits of `n` with `,` thousands separators (`format(n, ",d")`). -/
def natCharsGrouped (n : Nat) : List Char :=
  (insertGroupSepsLE (natChars n).reverse 0).reverse

/-- `format(q, ",.<prec>f")`: US-style grouped fixed-point decimal — the
`formatted_num_en` string of `format_kpi_value`. -/
def formatThousandsFixed (q : PyRat) (prec : Nat) : String :=
  let m := roundHalfEven (scalePow10 q prec)
  let a := m.natAbs
  let ip := a / 10 ^ prec
  let fp := a % 10 ^ prec
  let sign : List Char := if pyRatNeg q then ['-'] else []
  let frac : List Char := if prec = 0 then [] else '.' :: leftPadZeros prec (natChars fp)
  String.mk (sign ++ natCharsGrouped ip ++ frac)

/-- Fixed-point formatting of any numeric `PyVal` (`int`s format like the
equal float; `format(nan, ...)` is `"nan"`, `format(inf, ...)` is `"inf"`). -/
def formatFixedNum (v : PyVal) (prec : Nat) : String :=
  match v with
  | vInt i => formatFixed ⟨i, 1⟩ prec
  | vFloat q => formatFixed q prec
  | vNaN => "nan"
  | vInf => "inf"
  | _ => ""

/-- Grouped fixed-point formatting of any numeric `PyVal`. -/
def formatThousandsNum (v : PyVal) (prec : Nat) : String :=
  match v with
  | vInt i => formatThousandsFixed ⟨i, 1⟩ prec
  | vFloat q => formatThousandsFixed q prec
  | vNaN => "nan"
  | vInf => "inf"
  | _ => ""

/-! ## Model of Python `float(s)` and `str(v)` -/

/-- Split a character list at the first occurrence of a separator satisfying
`p`; returns the part before and (if a separator was found) the part after. -/
def splitAtFirst (p : Char → Bool) : List Char → List Char × Option (List Char)
  | [] => ([], none)
  | c :: cs =>
    if p c then ([], some cs)
    else
      let r := splitAtFirst p cs
      (c :: r.1, r.2)

/-- Parse an unsigned decimal mantissa `digits[.digits]` into an exact
rational (`none` on malformed input). -/
def parseMantissa (cs : List Char) : Option PyRat :=
  let sp := splitAtFirst (fun c => c = '.') cs
  let ip := sp.1
  let fp := (sp.2).getD []
  if ip.isEmpty && fp.isEmpty then none
  else if !(ip.all (fun c => (digitVal? c).isSome)) then none
  else if !(fp.all (fun c => (digitVal? c).isSome)) then none
  else if fp.contains '.' then none
  else
    let digits := ip ++ fp
    let n := digits.foldl (fun acc c => acc * 10 + (digitVal? c).getD 0) 0
    some ⟨(n : Int), 10 ^ fp.length⟩

/-- Scale a rational by a (possibly negative) power of ten. -/
def scalePow10Z (q : PyRat) (e : Int) : PyRat :=
  if 0 ≤ e then ⟨q.num * ((10 ^ e.natAbs : Nat) : Int), q.den⟩
  else ⟨q.num, q.den * 10 ^ e.natAbs⟩

/-- Model of Python `float(s)`: optional whitespace and sign, `inf`,
`infinity` and `nan` literals (case-insensitive), or a decimal mantissa with
optional exponent.  (Digit-group underscores are not modelled; the embedding
collapses `-inf` and `inf` into the single `vInf`, which is faithful for the
only consumer, the `math.isinf` test.) -/
def pyFloatOfChars (cs0 : List Char) : Option PyVal :=
  let cs1 := pyStripChars cs0
  let signAndRest : Bool × List Char :=
    match cs1 with
    | '-' :: rest => (true, rest)
    | '+' :: rest => (false, rest)
    | rest => (false, rest)
  let neg := signAndRest.1
  let rest := signAndRest.2
  let lower := rest.map Char.toLower
  if lower = ['i', 'n', 'f'] || lower = ['i', 'n', 'f', 'i', 'n', 'i', 't', 'y'] then
    some vInf
  else if lower = ['n', 'a', 'n'] then
    some vNaN
  else
    let sp := splitAtFirst (fun c => c = 'e' || c = 'E') rest
    let mant := sp.1
    match sp.2 with
    | none =>
      (parseMantissa mant).map (fun q => vFloat ⟨if neg then -q.num else q.num, q.den⟩)
    | some expPart =>
      let expSgnAndDigits : Bool × List Char :=
        match expPart with
        | '-' :: ds => (true, ds)
        | '+' :: ds => (false, ds)
        | ds => (false, ds)
      match parseNatChars expSgnAndDigits.2, parseMantissa mant with
      | some e, some q =>
        let e2 : Int := if expSgnAndDigits.1 then -(e : Int) else (e : Int)
        let q2 := scalePow10Z q e2
        some (vFloat ⟨if neg then -q2.num else q2.num, q2.den⟩)
      | _, _ => none

def pyFloatOfStr (s : String) : Option PyVal := pyFloatOfChars s.data

/-- Model of Python `repr`/`str` on floats.  Only two properties of it are
relied on by the embedded code: an integral float prints as `"<int>.0"`, and
every float repr contains a character that makes `int(...)` fail.  For
non-integral values we print the exact fixed-point expansion truncated to 17
fractional digits (exact for every value appearing in this development;
Python itself prints the shortest round-tripping decimal). -/
def floatRepr (q : PyRat) : String :=
  if q.den = 0 then "inf" else
  if pyRatNeg q then "-" ++ floatReprAbs ⟨q.num.natAbs, q.den⟩ else floatReprAbs ⟨q.num, q.den⟩
where
  floatReprAbs (a : PyRat) : String :=
    let ip := a.num.natAbs / a.den
    let rem := a.num.natAbs % a.den
    if rem = 0 then natToStr ip ++ ".0"
    else
      let fracDigits := rem * 10 ^ 17 / a.den
      let cs := (leftPadZeros 17 (natChars fracDigits)).reverse.dropWhile (fun c => c = '0')
      natToStr ip ++ "." ++ String.mk cs.reverse

/-- Model of Python `str(v)`.  (For lists the elements are shown without the
quoting Python's `repr` would add; no modelled code path or claim depends on
the rendering of list or bytes values.) -/
def pyStr : PyVal → String
  | vNone => "None"
  | vInt i => intToStr i
  | vFloat q => floatRepr q
  | vNaN => "nan"
  | vInf => "inf"
  | vStr s => s
  | vList xs => "[" ++ String.intercalate ", " (xs.map pyStrAtom) ++ "]"
  | vBytes bs => "b" ++ String.intercalate "," (bs.map natToStr)
where
  pyStrAtom : PyVal → String
  | vNone => "None"
  | vInt i => intToStr i
  | vFloat q => floatRepr q
  | vNaN => "nan"
  | vInf => "inf"
  | vStr s => s
  | vList _ => "[...]"
  | vBytes _ => "b..."

/-! ## `get_text` (pdf_generator.py, TextResolver) -/

/-- Embedding of `get_text(texts_dict, key, fallback_text_value=None)`:
look the key up in the translation dict, falling back to the given fallback,
or — when no fallback is supplied — to the title-cased humanized key with a
"PDF-Text fehlt" marker.  (`texts_dict` is always a dict here, and its
values are strings, so the `isinstance` guard and the final `str()` are
identities.) -/
def get_text (texts : Texts) (key : String) (fallback : Option String) : String :=
  let fb :=
    match fallback with
    | some f => f
    | none => pyTitle (pyReplace key "_" " ") ++ " (PDF-Text fehlt)"
  match texts key with
  | some v => v
  | none => fb

/-! ## `format_kpi_value` (pdf_generator.py, ValueFormatter) -/

/-- The default template of the `"Jahre"` branch, written with escaped
braces: the string is `{val:.1f} Jahre`. -/
def yearsDefaultTemplate : String := "\x7bval:.1f\x7d Jahre"

/-- The placeholder replaced by `.format(val=value)` in the years template. -/
def yearsValPlaceholder : String := "\x7bval:.1f\x7d"

/-- The numeric tail of `format_kpi_value` (reached with a value that passed
`isinstance(value, (int, float))`): infinite values yield the localized
"Nicht berechenbar" sentinel, the `"Jahre"` unit formats through the
localized `{val:.1f} Jahre` template (note: no German comma conversion on
this path), and every other numeric value is formatted `,.{precision}f`,
its `,`/`.` separators swapped into German convention via the `#TEMP#`
dance, and suffixed with the unit. -/
def formatNumericTail (value : PyVal) (unit : String) (precision : Nat)
    (texts : Texts) : String :=
  if pyIsInf value then get_text texts "value_infinite" (some "Nicht berechenbar")
  else if unit = "Jahre" then
    pyReplace (get_text texts "years_format_string_pdf" (some yearsDefaultTemplate))
      yearsValPlaceholder (formatFixedNum value 1)
  else
    let formattedNumEn := formatThousandsNum value precision
    let formattedNumDe :=
      pyReplace (pyReplace (pyReplace formattedNumEn "," "#TEMP#") "." ",") "#TEMP#" "."
    pyStrip (formattedNumDe ++ " " ++ unit)

/-- The string-coercion step of `format_kpi_value`: when both separators are
present the one occurring last is the decimal point and the other is
stripped, then the remaining `,` becomes `.` and Python `float()` is
attempted. -/
def coerceNumericStr (s : String) : Option PyVal :=
  let cs := s.data
  let cleaned :=
    if cs.contains '.' && cs.contains ',' then
      if lastIdxOf cs ',' < lastIdxOf cs '.' then cs.filter (fun c => c ≠ ',')
      else if lastIdxOf cs '.' < lastIdxOf cs ',' then cs.filter (fun c => c ≠ '.')
      else cs
    else cs
  pyFloatOfChars (cleaned.map (fun c => if c = ',' then '.' else c))

/-- Embedding of `format_kpi_value(value, unit, na_text_key, precision,
texts_dict)`:
`None` and NaN give the localized N/A text; a string equal to the N/A text
is returned unchanged; other strings are coerced to a float where possible
(returned unchanged otherwise); numeric values flow into
`formatNumericTail`; anything else is `str(value)`. -/
def format_kpi_value (value : PyVal) (unit : String) (naTextKey : String)
    (precision : Nat) (texts : Texts) : String :=
  let naText := get_text texts naTextKey (some "k.A.")
  match value with
  | vNone => naText
  | vNaN => naText
  | vStr s =>
    if s = naText then s
    else
      match coerceNumericStr s with
      | some coerced => formatNumericTail coerced unit precision texts
      | none => s
  | vInt i => formatNumericTail (vInt i) unit precision texts
  | vFloat q => formatNumericTail (vFloat q) unit precision texts
  | vInf => formatNumericTail vInf unit precision texts
  | vList xs => pyStr (vList xs)
  | vBytes bs => pyStr (vBytes bs)

/-! ## `_generate_complete_salutation_line` (pdf_generator.py,
PlaceholderEngine) -/

/-- Customer data dict; the data-entry layer stores strings in these
fields, so values are modelled as strings. -/
abbrev CustomerData : Type := String → Option String

/-- Embedding of `_generate_complete_salutation_line(customer_data, texts)`.
`customer_data.get("salutation")` is `none` when the key is absent (in which
case the `isinstance(salutation_value, str)` block is skipped). -/
def generate_complete_salutation_line (customerData : CustomerData)
    (texts : Texts) : String :=
  let title := (customerData "title").getD ""
  let firstName := (customerData "first_name").getD ""
  let lastName := (customerData "last_name").getD ""
  let nameParts := [title, firstName, lastName].filter
    (fun p => !(p.data.isEmpty) && !((pyStrip p).data.isEmpty))
  let customerFullName := pyStrip (String.intercalate " " nameParts)
  let genericFallback :=
    get_text texts "salutation_generic_fallback" (some "Sehr geehrte Damen und Herren,")
  let afterSpecial : Option String :=
    match customerData "salutation" with
    | none => none
    | some sv =>
      let sl := pyStrip ((String.mk (sv.data.map Char.toLower)))
      if sl = "familie" then
        let famName :=
          if !(lastName.data.isEmpty) && !((pyStrip lastName).data.isEmpty) then lastName
          else (customerData "company_name").getD
            (get_text texts "family_default_name_pdf" (some "Familie"))
        some (get_text texts "salutation_family_polite" (some "Sehr geehrte Familie")
          ++ " " ++ pyStrip famName ++ ",")
      else if sl = "firma" then
        let fromDict := (customerData "company_name").getD ""
        let companyNameVal := if !(fromDict.data.isEmpty) then fromDict else lastName
        if !(companyNameVal.data.isEmpty) then
          some (get_text texts "salutation_company_polite"
            (some "Sehr geehrte Damen und Herren der Firma")
            ++ " " ++ pyStrip companyNameVal ++ ",")
        else some genericFallback
      else none
  match afterSpecial with
  | some result => result
  | none =>
    let salutationKeyBase :=
      match customerData "salutation" with
      | none => "salutation_polite"
      | some sv =>
        let sl := pyStrip ((String.mk (sv.data.map Char.toLower)))
        if sl = "herr" then "salutation_male_polite"
        else if sl = "frau" then "salutation_female_polite"
        else "salutation_polite"
    let defaultSalutationText := get_text texts salutationKeyBase (some "Sehr geehrte/r")
    if !(customerFullName.data.isEmpty) then
      defaultSalutationText ++ " " ++ customerFullName ++ ","
    else genericFallback

/-! ## `_get_next_offer_number` (pdf_generator.py, OfferNumber) -/

/-- The SettingsStore state: the persisted admin settings as a key/value
map.  `load_admin_setting_func(key, default)` reads it with a default and
`save_admin_setting_func(key, value)` writes it; the store is assumed
well-behaved (a save persists the value a subsequent load returns), which
is the SettingsStore contract the spec states. -/
abbrev Store : Type := String → Option PyVal

def storeSave (st : Store) (k : String) (v : PyVal) : Store :=
  fun k2 => if k2 = k then some v else st k2

/-- The suffix computation inside the `try` block of
`_get_next_offer_number`: load `offer_number_suffix` with default `1000`,
keep `1000` when the loaded object is `None`, else `int(str(obj))`.
`none` models the `ValueError` of a failed `int` parse. -/
def currentSuffixOf (st : Store) : Option Int :=
  match (st "offer_number_suffix").getD (vInt 1000) with
  | vNone => some 1000
  | obj => pyIntOfStr (pyStr obj)

/-- `f"{n:04d}"`: decimal digits zero-padded to width 4 (sign included in
the width, as in Python). -/
def pad4 (n : Int) : String :=
  if n < 0 then String.mk ('-' :: leftPadZeros 3 (natChars n.natAbs))
  else String.mk (leftPadZeros 4 (natChars n.natAbs))

/-- Embedding of `_get_next_offer_number(texts, load, save)`.  `year` is
`datetime.now().year` and `nowTs` is `datetime.now().strftime('%Y%m%d-%H%M%S')`,
both passed in as parameters (wall clock is external).  On the happy path
the stored suffix is incremented, saved back, and the offer number is
`AN{year}-{suffix:04d}`; if the stored object fails to parse as an integer
the `except` branch returns the timestamp fallback `AN{nowTs}` and the
store is left untouched. -/
def get_next_offer_number (year : Nat) (nowTs : String) (st : Store) :
    String × Store :=
  match currentSuffixOf st with
  | some currentSuffix =>
    let nextSuffix := currentSuffix + 1
    ("AN" ++ natToStr year ++ "-" ++ pad4 nextSuffix,
      storeSave st "offer_number_suffix" (vInt nextSuffix))
  | none => ("AN" ++ nowTs, st)

/-! ## `_prepare_cost_table_for_pdf` (pdf_generator.py, CostDetails) -/

/-- Model of a ReportLab `Paragraph(text, STYLES[styleName])`: the text and
the style-sheet name it was built with (every style name used by the
embedded functions exists in `STYLES`, so the `STYLES.get(..., fallback)`
lookups resolve to the named style). -/
structure Para where
  text : String
  style : String
deriving DecidableEq

/-- One entry of `cost_items_ordered_pdf`:
(result_key, label_key, is_euro_val, base_style_name). -/
abbrev CostItem : Type := String × String × Bool × String

/-- The `cost_items_ordered_pdf` list, verbatim from the source. -/
def cost_items_ordered_pdf : List CostItem :=
  [("base_matrix_price_netto", "base_matrix_price_netto", true, "TableText"),
   ("cost_modules_aufpreis_netto", "cost_modules", true, "TableText"),
   ("cost_inverter_aufpreis_netto", "cost_inverter", true, "TableText"),
   ("cost_storage_aufpreis_product_db_netto", "cost_storage", true, "TableText"),
   ("total_optional_components_cost_netto", "total_optional_components_cost_netto_label", true, "TableText"),
   ("cost_accessories_aufpreis_netto", "cost_accessories_aufpreis_netto", true, "TableText"),
   ("cost_scaffolding_netto", "cost_scaffolding_netto", true, "TableText"),
   ("cost_misc_netto", "cost_misc_netto", true, "TableText"),
   ("cost_custom_netto", "cost_custom_netto", true, "TableText"),
   ("subtotal_netto", "subtotal_netto", true, "TableBoldRight"),
   ("one_time_bonus_eur", "one_time_bonus_eur_label", true, "TableText"),
   ("total_investment_netto", "total_investment_netto", true, "TableBoldRight"),
   ("vat_rate_percent", "vat_rate_percent", false, "TableText"),
   ("total_investment_brutto", "total_investment_brutto", true, "TableBoldRight")]

/-- The always-show keys of the zero-suppression test, verbatim. -/
def alwaysShowCostKeys : List String :=
  ["total_investment_netto", "total_investment_brutto", "subtotal_netto",
   "vat_rate_percent", "base_matrix_price_netto", "one_time_bonus_eur"]

/-- `value_cost == 0.0` for a dict value: Python float equality with `0.0`
is true exactly for the numbers of value zero (strings, lists, `None`, NaN
and infinities never compare equal to `0.0`). -/
def pyEqZeroFloat : PyVal → Bool
  | vInt i => i == 0
  | vFloat q => q.num == 0
  | _ => false

/-- The row appended for one cost item that passed both guards: label
paragraph plus formatted-value paragraph, styles as computed by the source
body. -/
def renderCostItem (texts : Texts) (item : CostItem) (valueCost : PyVal) :
    List Para :=
  let resultKey := item.1
  let labelKey := item.2.1
  let isEuroVal := item.2.2.1
  let baseStyleName := item.2.2.2
  let labelTextPdf := get_text texts labelKey (some (pyTitle (pyReplace labelKey "_" " ")))
  let unitPdf := if isEuroVal then "€" else if labelKey = "vat_rate_percent" then "%" else ""
  let precisionPdf := if labelKey = "vat_rate_percent" then 1 else 2
  let formattedValueStrPdf :=
    format_kpi_value valueCost unitPdf "not_applicable_short" precisionPdf texts
  let valueStyleName :=
    if resultKey ∈ ["total_investment_netto", "total_investment_brutto", "subtotal_netto"]
    then "TableBoldRight"
    else if isEuroVal || unitPdf = "%" then "TableNumber"
    else baseStyleName
  [⟨labelTextPdf, "TableLabel"⟩, ⟨formattedValueStrPdf, valueStyleName⟩]

/-- `v is None`. -/
def pyIsNone : PyVal → Bool
  | vNone => true
  | _ => false

/-- The `for result_key, ... in cost_items_ordered_pdf` loop: a row is
appended for every item whose dict value is present and not `None`
(`if value_cost is not None`), unless the value equals `0.0` and the key is
not an always-show key. -/
def prepareCostTableAux (ar : PyDict) (texts : Texts) : List CostItem → List (List Para)
  | [] => []
  | item :: rest =>
    match ar item.1 with
    | none => prepareCostTableAux ar texts rest
    | some valueCost =>
      if pyIsNone valueCost then prepareCostTableAux ar texts rest
      else if pyEqZeroFloat valueCost && !(item.1 ∈ alwaysShowCostKeys) then
        prepareCostTableAux ar texts rest
      else
        renderCostItem texts item valueCost :: prepareCostTableAux ar texts rest

/-- Embedding of `_prepare_cost_table_for_pdf(analysis_results, texts)`. -/
def prepare_cost_table_for_pdf (ar : PyDict) (texts : Texts) : List (List Para) :=
  prepareCostTableAux ar texts cost_items_ordered_pdf

/-! ## `_prepare_simulation_table_for_pdf` (pdf_generator.py,
SimulationDetails) -/

/-- One entry of `header_config_pdf`: header title, optional result key,
unit, precision, style name. -/
structure SimCol where
  title : String
  key : Option String
  unit : String
  precision : Nat
  style : String

/-- The `header_config_pdf` list, verbatim from the source. -/
def simHeaderConfig (texts : Texts) : List SimCol :=
  [⟨get_text texts "analysis_table_year_header" (some "Jahr"), none, "", 0, "TableText"⟩,
   ⟨get_text texts "annual_pv_production_kwh" (some "PV Prod."),
     some "annual_productions_sim", "kWh", 0, "TableNumber"⟩,
   ⟨get_text texts "annual_financial_benefit" (some "Jährl. Vorteil"),
     some "annual_benefits_sim", "€", 2, "TableNumber"⟩,
   ⟨get_text texts "annual_maintenance_cost_sim" (some "Wartung"),
     some "annual_maintenance_costs_sim", "€", 2, "TableNumber"⟩,
   ⟨get_text texts "analysis_table_annual_cf_header" (some "Jährl. CF"),
     some "annual_cash_flows_sim", "€", 2, "TableNumber"⟩,
   ⟨get_text texts "analysis_table_cumulative_cf_header" (some "Kum. CF"),
     some "cumulative_cash_flows_sim_display", "€", 2, "TableBoldRight"⟩]

/-- The header row: one `TableHeader` paragraph per configured column. -/
def simHeaderRow (texts : Texts) : List Para :=
  (simHeaderConfig texts).map (fun hc => ⟨hc.title, "TableHeader"⟩)

/-- The ellipsis row appended when the simulation period exceeds the number
of displayed years (the in-place centre-alignment mutation of the shared
style object is outside the `Para` model). -/
def simEllipsisRow : List Para :=
  List.replicate 6 ⟨"...", "TableText"⟩

/-- Python `int(v)` as used on dict values: integers pass through, floats
truncate toward zero, numeric strings parse; `none` models the exception
`int` raises on every other value (NaN, infinities, `None`, lists, bytes). -/
def pyToIntTrunc : PyVal → Option Int
  | vInt i => some i
  | vFloat q => some (q.num.sign * (q.num.natAbs / q.den : Nat))
  | vStr s => pyIntOfStr s
  | _ => none

/-- The value written under `cumulative_cash_flows_sim_display`: the tail of
the base series when it is truthy and exactly `period + 1` long, else a
list of `None` of the period's length.  `none` models the `len()` TypeError
on a truthy non-sized value. -/
def simDisplayValue (cum : PyVal) (simPeriodEff : Int) : Option PyVal :=
  if pyTruthy cum then
    match pyLen cum with
    | none => none
    | some len =>
      if (len : Int) = simPeriodEff + 1 then some (pySliceFrom1 cum)
      else some (vList (List.replicate simPeriodEff.toNat vNone))
  else some (vList (List.replicate simPeriodEff.toNat vNone))

/-- One data row of the simulation table: the 1-based year number followed
by one formatted cell per series column, each looked up positionally in the
(already mutated) `analysis_results` dict, with a `None`-cell whenever the
stored value is not a list or too short. -/
def simDataRow (ar : PyDict) (texts : Texts) (i : Nat) : List Para :=
  ⟨natToStr (i + 1), "TableText"⟩ ::
    ((simHeaderConfig texts).drop 1).map (fun hc =>
      let currentList := (ar (hc.key.getD "None")).getD (vList [])
      let valueToFormat :=
        match currentList with
        | vList xs => if i < xs.length then xs.getD i vNone else vNone
        | _ => vNone
      let formatted :=
        format_kpi_value valueToFormat hc.unit "value_not_available_short_pdf"
          hc.precision texts
      ⟨formatted, hc.style⟩)

/-- Embedding of `_prepare_simulation_table_for_pdf(analysis_results,
texts, num_years_to_show)`.  The function both returns the table rows and
mutates its `analysis_results` argument (the display-series write), so the
embedding returns the rows together with the resulting dict; `none` models
an exception escaping to the caller (un-parseable period value, or `len()`
on a truthy non-sized cumulative value). -/
def prepare_simulation_table_for_pdf (ar : PyDict) (texts : Texts)
    (numYearsToShow : Int) : Option (List (List Para) × PyDict) :=
  let headerRow := simHeaderRow texts
  match pyToIntTrunc ((ar "simulation_period_years_effective").getD (vInt 0)) with
  | none => none
  | some simPeriodEff =>
    if simPeriodEff = 0 then some ([headerRow], ar)
    else
      let actualYearsToDisplay := min simPeriodEff numYearsToShow
      let cumulativeBase := (ar "cumulative_cash_flows_sim").getD (vList [])
      match simDisplayValue cumulativeBase simPeriodEff with
      | none => none
      | some disp =>
        let ar2 := dictSet ar "cumulative_cash_flows_sim_display" disp
        let dataRows :=
          (List.range actualYearsToDisplay.toNat).map (fun i => simDataRow ar2 texts i)
        let rows :=
          if numYearsToShow < simPeriodEff
          then headerRow :: dataRows ++ [simEllipsisRow]
          else headerRow :: dataRows
        some (rows, ar2)

/-! ## Chart gating in the Visualizations section (`generate_offer_pdf`) -/

/-- The keys of `charts_config_for_pdf_generator`, in source order. -/
def chartsConfigKeys : List String :=
  ["monthly_prod_cons_chart_bytes",
   "cost_projection_chart_bytes",
   "cumulative_cashflow_chart_bytes",
   "consumption_coverage_pie_chart_bytes",
   "pv_usage_pie_chart_bytes",
   "daily_production_switcher_chart_bytes",
   "weekly_production_switcher_chart_bytes",
   "yearly_production_switcher_chart_bytes",
   "project_roi_matrix_switcher_chart_bytes",
   "feed_in_revenue_switcher_chart_bytes",
   "prod_vs_cons_switcher_chart_bytes",
   "tariff_cube_switcher_chart_bytes",
   "co2_savings_value_switcher_chart_bytes",
   "investment_value_switcher_chart_bytes",
   "storage_effect_switcher_chart_bytes",
   "selfuse_stack_switcher_chart_bytes",
   "cost_growth_switcher_chart_bytes",
   "selfuse_ratio_switcher_chart_bytes",
   "roi_comparison_switcher_chart_bytes",
   "scenario_comparison_switcher_chart_bytes",
   "tariff_comparison_switcher_chart_bytes",
   "income_projection_switcher_chart_bytes",
   "yearly_production_chart_bytes",
   "break_even_chart_bytes",
   "amortisation_chart_bytes"]

/-- The per-key gate of the Visualizations loop: the iteration `continue`s
unless the key is in the user's selection, and the titled image block is
emitted only when `current_analysis_results_pdf.get(chart_key)` is truthy
and of type `bytes`. -/
def chartEmitGate (selectedChartsForPdf : List String) (ar : PyDict)
    (chartKey : String) : Bool :=
  (chartKey ∈ selectedChartsForPdf) &&
    pyTruthy ((ar chartKey).getD vNone) && pyIsBytes ((ar chartKey).getD vNone)

/-- The chart keys whose titled image block is emitted by the
Visualizations section, in catalog order. -/
def vizEmittedChartKeys (selectedChartsForPdf : List String) (ar : PyDict) :
    List String :=
  chartsConfigKeys.filter (chartEmitGate selectedChartsForPdf ar)

/-! ## The appendix-merge phase of `generate_offer_pdf` (AppendixMerger) -/

/-- The page lists contributed by the appendix files: every collected path
is read and its pages appended in order; a path whose read (or page
iteration) raises is skipped silently and contributes nothing. -/
def collectAppendPages {Page : Type} (readPath : String → Except Unit (List Page)) :
    List String → List Page
  | [] => []
  | p :: rest =>
    (match readPath p with
     | Except.ok pgs => pgs
     | Except.error _ => []) ++ collectAppendPages readPath rest

/-- Embedding of the post-build merge phase of `generate_offer_pdf`
(everything from `if not main_pdf_bytes` to the final return).  PDF parsing
and serialisation are the external pypdf collaborators, passed as
functions; `Except.error` models a raised exception.  Behaviour:
no main bytes → `none`; appendix disabled or pypdf missing → main bytes;
no collected paths → main bytes; unreadable main document → main bytes;
otherwise the main pages plus every readable appendix file's pages are
serialised, falling back to the main bytes if serialisation fails. -/
def mergeAppendixPhase {Page : Type} (includeAllDocumentsOpt pypdfAvailable : Bool)
    (mainPdfBytes : List Nat) (pathsToAppend : List String)
    (readMain : List Nat → Except Unit (List Page))
    (readPath : String → Except Unit (List Page))
    (writePdf : List Page → Except Unit (List Nat)) : Option (List Nat) :=
  if mainPdfBytes.isEmpty then none
  else if !(includeAllDocumentsOpt && pypdfAvailable) then some mainPdfBytes
  else if pathsToAppend.isEmpty then some mainPdfBytes
  else
    match readMain mainPdfBytes with
    | Except.error _ => some mainPdfBytes
    | Except.ok mainPages =>
      match writePdf (mainPages ++ collectAppendPages readPath pathsToAppend) with
      | Except.ok finalPdfBytes => some finalPdfBytes
      | Except.error _ => some mainPdfBytes

/-! ## Concrete inputs used by witnesses and counterexamples -/

/-- An empty translation dict. -/
def noTexts : Texts := fun _ => none

/-- Chart selection for the C4 witness. -/
def c4wSelected : List String :=
  ["break_even_chart_bytes", "pv_usage_pie_chart_bytes"]

/-- AnalysisResults chart entries for the C4 witness: selected bytes,
selected `None`, unselected bytes. -/
def c4wAr : PyDict := fun k =>
  if k = "break_even_chart_bytes" then some (vBytes [1, 2])
  else if k = "pv_usage_pie_chart_bytes" then some vNone
  else if k = "cost_projection_chart_bytes" then some (vBytes [3])
  else none

/-- Customer dict of the C6 witness case 1:
`{salutation: "Frau", first_name: "Anna", last_name: "Muster"}`. -/
def cdFrau : CustomerData := fun k =>
  if k = "salutation" then some "Frau"
  else if k = "first_name" then some "Anna"
  else if k = "last_name" then some "Muster"
  else none

/-- Customer dict of the C6 case 2: `{salutation: "Familie", last_name:
"Schmidt"}`. -/
def cdFamilie : CustomerData := fun k =>
  if k = "salutation" then some "Familie"
  else if k = "last_name" then some "Schmidt"
  else none

/-- Customer dict of the C6 case 3: all fields empty. -/
def cdEmpty : CustomerData := fun k =>
  if k = "salutation" then some ""
  else if k = "title" then some ""
  else if k = "first_name" then some ""
  else if k = "last_name" then some ""
  else if k = "company_name" then some ""
  else none

/-- AnalysisResults of the C3 witness: `subtotal_netto` (always-show) and
`cost_misc_netto` (suppressible) both exactly `0.0`. -/
def c3wAr : PyDict := fun k =>
  if k = "subtotal_netto" then some (vFloat ⟨0, 1⟩)
  else if k = "cost_misc_netto" then some (vFloat ⟨0, 1⟩)
  else none

/-- AnalysisResults with a 15-year effective simulation period and a
15-element cumulative cash-flow series (C2 witness, first case). -/
def arSim15 : PyDict := fun k =>
  if k = "simulation_period_years_effective" then some (vInt 15)
  else if k = "cumulative_cash_flows_sim" then
    some (vList (List.replicate 15 (vInt 1)))
  else none

/-- AnalysisResults with an 8-year effective simulation period (C2 witness,
second case). -/
def arSim8 : PyDict := fun k =>
  if k = "simulation_period_years_effective" then some (vInt 8)
  else none

/-- AnalysisResults with effective simulation period 0 (C2 witness third
case and C9 counterexample). -/
def arSim0 : PyDict := fun k =>
  if k = "simulation_period_years_effective" then some (vInt 0)
  else none

/-- AnalysisResults with a 2-year period and a 3-element cumulative series
(C9 amended-claim witness: the display series is the 2-element tail). -/
def arSimP2 : PyDict := fun k =>
  if k = "simulation_period_years_effective" then some (vInt 2)
  else if k = "cumulative_cash_flows_sim" then
    some (vList [vInt 5, vInt 6, vInt 7])
  else none

/-! ## Decimal repr / parse round trip

The offer-number counter is written with `save_admin_setting_func` as an
`int` and read back through `int(str(obj))`; the following lemmas establish
that this round trip is the identity in the model, which claim C7 needs for
the second generation call. -/

/-- Value of a little-endian digit list. -/
def valOfDigitsLE : List Nat → Nat
  | [] => 0
  | d :: ds => d + 10 * valOfDigitsLE ds

theorem natDigitsAux_val : ∀ fuel n, n ≤ fuel → valOfDigitsLE (natDigitsAux fuel n) = n := by
  intro fuel
  induction fuel with
  | zero =>
    intro n hn
    interval_cases n
    rfl
  | succ f ih =>
    intro n hn
    match n with
    | 0 => rfl
    | m + 1 =>
      have hdiv : (m + 1) / 10 ≤ f := by
        have h2 : (m + 1) / 10 < m + 1 := Nat.div_lt_self (Nat.succ_pos m) (by norm_num)
        omega
      show valOfDigitsLE ((m + 1) % 10 :: natDigitsAux f ((m + 1) / 10)) = m + 1
      simp only [valOfDigitsLE, ih _ hdiv]
      omega

theorem natDigitsAux_lt10 : ∀ fuel n d, d ∈ natDigitsAux fuel n → d < 10 := by
  intro fuel
  induction fuel with
  | zero => intro n d hd; simp [natDigitsAux] at hd
  | succ f ih =>
    intro n d hd
    match n with
    | 0 => simp [natDigitsAux] at hd
    | m + 1 =>
      simp only [natDigitsAux, List.mem_cons] at hd
      rcases hd with h | h
      · omega
      · exact ih _ _ h

theorem digitVal_digitChar {d : Nat} (hd : d < 10) : digitVal? (digitChar10 d) = some d := by
  interval_cases d <;> rfl

theorem natChars_all_digit : ∀ n c, c ∈ natChars n → (digitVal? c).isSome = true := by
  intro n c hc
  unfold natChars at hc
  split at hc
  · simp only [List.mem_singleton] at hc
    subst hc
    rfl
  · simp only [List.mem_reverse, List.mem_map] at hc
    obtain ⟨d, hd, rfl⟩ := hc
    rw [digitVal_digitChar (natDigitsAux_lt10 _ _ _ hd)]
    rfl

theorem digit_char_props : ∀ c : Char, (digitVal? c).isSome = true →
    isPyWs c = false ∧ c ≠ '-' ∧ c ≠ '+' ∧ c ≠ '.' := by
  intro c h
  unfold digitVal? at h
  split_ifs at h with h0 h1 h2 h3 h4 h5 h6 h7 h8 h9
  · subst h0; exact ⟨rfl, by decide, by decide, by decide⟩
  · subst h1; exact ⟨rfl, by decide, by decide, by decide⟩
  · subst h2; exact ⟨rfl, by decide, by decide, by decide⟩
  · subst h3; exact ⟨rfl, by decide, by decide, by decide⟩
  · subst h4; exact ⟨rfl, by decide, by decide, by decide⟩
  · subst h5; exact ⟨rfl, by decide, by decide, by decide⟩
  · subst h6; exact ⟨rfl, by decide, by decide, by decide⟩
  · subst h7; exact ⟨rfl, by decide, by decide, by decide⟩
  · subst h8; exact ⟨rfl, by decide, by decide, by decide⟩
  · subst h9; exact ⟨rfl, by decide, by decide, by decide⟩
  · simp at h

theorem dropWhile_ws_eq_self : ∀ cs : List Char, (∀ c ∈ cs, isPyWs c = false) →
    cs.dropWhile isPyWs = cs := by
  intro cs h
  match cs with
  | [] => rfl
  | c :: t =>
    rw [List.dropWhile_cons, h c (List.mem_cons_self c t)]
    simp

theorem pyStripChars_eq_self {cs : List Char} (h : ∀ c ∈ cs, isPyWs c = false) :
    pyStripChars cs = cs := by
  unfold pyStripChars
  rw [dropWhile_ws_eq_self cs h]
  rw [dropWhile_ws_eq_self cs.reverse (fun c hc => h c (List.mem_reverse.mp hc))]
  exact List.reverse_reverse cs

theorem foldl_rev_digit_chars : ∀ (ds : List Nat) (acc : Nat), (∀ d ∈ ds, d < 10) →
    ((ds.map digitChar10).reverse).foldl
      (fun a c => a * 10 + (digitVal? c).getD 0) acc
      = acc * 10 ^ ds.length + valOfDigitsLE ds := by
  intro ds
  induction ds with
  | nil => intro acc _; simp [valOfDigitsLE]
  | cons d t ih =>
    intro acc h
    have hd : d < 10 := h d (List.mem_cons_self d t)
    have ht : ∀ x ∈ t, x < 10 := fun x hx => h x (List.mem_cons_of_mem d hx)
    simp only [List.map_cons, List.reverse_cons, List.foldl_append, List.foldl_cons,
      List.foldl_nil, ih acc ht]
    rw [digitVal_digitChar hd]
    simp only [Option.getD_some, valOfDigitsLE, List.length_cons]
    rw [pow_succ]
    ring

theorem natChars_ne_nil : ∀ n, natChars n ≠ [] := by
  intro n
  unfold natChars
  split
  · simp
  · next hn =>
    match n, hn with
    | m + 1, _ =>
      simp [natDigitsAux]

theorem parseNatChars_natChars : ∀ n, parseNatChars (natChars n) = some n := by
  intro n
  by_cases hn : n = 0
  · subst hn; rfl
  · have hchars : natChars n = ((natDigitsAux n n).map digitChar10).reverse := by
      unfold natChars; rw [if_neg hn]
    have hne : (natChars n).isEmpty = false := by
      cases h : natChars n with
      | nil => exact absurd h (natChars_ne_nil n)
      | cons c t => rfl
    have hall : ((natChars n).all fun c => (digitVal? c).isSome) = true := by
      rw [List.all_eq_true]
      exact fun x hx => natChars_all_digit n x hx
    unfold parseNatChars
    rw [hne, hall]
    simp only [Bool.false_eq_true, if_false, if_true]
    rw [hchars, foldl_rev_digit_chars _ 0 (fun d hd => natDigitsAux_lt10 _ _ _ hd),
      natDigitsAux_val n n (le_refl n)]
    simp

theorem natChars_not_ws : ∀ n c, c ∈ natChars n → isPyWs c = false :=
  fun n c hc => (digit_char_props c (natChars_all_digit n c hc)).1

theorem pyIntOfStr_natRound : ∀ n : Nat, pyIntOfStr (String.mk (natChars n)) = some (n : Int) := by
  intro n
  unfold pyIntOfStr
  have hstrip : pyStripChars (String.mk (natChars n)).data = natChars n :=
    pyStripChars_eq_self (fun c hc => natChars_not_ws n c hc)
  rw [hstrip]
  obtain ⟨c, t, hct⟩ : ∃ c t, natChars n = c :: t := by
    match h : natChars n with
    | [] => exact absurd h (natChars_ne_nil n)
    | c :: t => exact ⟨c, t, rfl⟩
  have hdig := natChars_all_digit n c (by rw [hct]; exact List.mem_cons_self c t)
  obtain ⟨-, hdash, hplus, -⟩ := digit_char_props c hdig
  rw [hct]
  simp only [pyIntOfChars2, if_neg hdash, if_neg hplus]
  rw [← hct, parseNatChars_natChars n]
  rfl

theorem pyIntOfStr_intToStr : ∀ i : Int, pyIntOfStr (intToStr i) = some i := by
  intro i
  unfold intToStr
  split
  · next hneg =>
    unfold pyIntOfStr
    have hstrip : pyStripChars (String.mk ('-' :: natChars i.natAbs)).data =
        '-' :: natChars i.natAbs := by
      apply pyStripChars_eq_self
      intro c hc
      rcases List.mem_cons.mp hc with h | h
      · subst h; rfl
      · exact natChars_not_ws _ c h
    rw [hstrip]
    simp only [pyIntOfChars2, if_pos rfl]
    rw [parseNatChars_natChars]
    have h2 : -((i.natAbs : Nat) : Int) = i := by omega
    simp [h2]
    rw [abs_of_neg hneg, neg_neg]
  · next hpos =>
    rw [pyIntOfStr_natRound i.natAbs]
    have : ((i.natAbs : Nat) : Int) = i := by omega
    rw [this]

/-- Saving an integer suffix and loading it back yields the same integer:
the `int(str(obj))` round trip of `_get_next_offer_number` succeeds on every
value the function itself stores. -/
theorem currentSuffixOf_storeSave (st : Store) (n : Int) :
    currentSuffixOf (storeSave st "offer_number_suffix" (vInt n)) = some n := by
  unfold currentSuffixOf storeSave
  simp only [if_pos rfl, Option.getD_some]
  exact pyIntOfStr_intToStr n

/-! ## Claim theorems -/

/-- C1, counterexample.  The claim states that
`format_kpi_value(3.25, "Jahre")` (defaults: `na_text_key =
"not_applicable_short"`, `precision = 2`, empty texts dict) returns exactly
`"3,3 Jahre"`.  It does not: the `"Jahre"` branch formats through the
`{val:.1f}` template, whose correctly-rounded ties-to-even conversion turns
the exactly-representable 3.25 into `3.2`, and this branch performs no
German comma substitution, so the result is `"3.2 Jahre"`. -/
theorem c1_years_format_counterexample :
    format_kpi_value (vFloat ⟨13, 4⟩) "Jahre" "not_applicable_short" 2 (fun _ => none)
      = "3.2 Jahre" ∧ ("3.2 Jahre" : String) ≠ "3,3 Jahre" := by
  exact ⟨by decide, by decide⟩

/-- C1, amended.  For the numeric value 3.25 with unit `"Jahre"`,
`format_kpi_value` returns exactly `"3.2 Jahre"`: the general `precision=2`
rule is indeed overridden to one fractional digit for this unit, but the
rounding is ties-to-even (3.25 → 3.2) and the years branch keeps the
template's decimal point — no German decimal comma is applied on this
path. -/
theorem c1_years_format_amended :
    format_kpi_value (vFloat ⟨13, 4⟩) "Jahre" "not_applicable_short" 2 (fun _ => none)
      = "3.2 Jahre" := by
  decide

/-- C5.  N/A formatting is idempotent: for every texts dict and
`na_text_key` (and any units/precisions), `format_kpi_value` maps `None` to
the localized N/A string, and feeding that string back in returns the
identical string. -/
theorem c5_na_formatting_idempotent :
    ∀ (texts : Texts) (naTextKey u1 u2 : String) (p1 p2 : Nat),
      format_kpi_value vNone u1 naTextKey p1 texts
        = get_text texts naTextKey (some "k.A.") ∧
      format_kpi_value (vStr (format_kpi_value vNone u1 naTextKey p1 texts))
          u2 naTextKey p2 texts
        = format_kpi_value vNone u1 naTextKey p1 texts := by
  intro texts naTextKey u1 u2 p1 p2
  constructor
  · rfl
  · show format_kpi_value (vStr (get_text texts naTextKey (some "k.A."))) u2 naTextKey p2 texts
      = get_text texts naTextKey (some "k.A.")
    unfold format_kpi_value
    simp

/-- C10.  Offer-number generation never raises (the embedding is a total
function): whenever loading/parsing the stored suffix fails —
`currentSuffixOf st = none` models any exception inside the `try` block —
`_get_next_offer_number` returns the timestamp fallback `"AN" ++ nowTs`
(with `nowTs = datetime.now().strftime('%Y%m%d-%H%M%S')`, so of the form
`AN{YYYYMMDD-HHMMSS}` rather than `AN{year}-{suffix:04d}`), and the stored
counter is left unchanged rather than incremented. -/
theorem c10_offer_number_fallback :
    ∀ (year : Nat) (nowTs : String) (st : Store),
      currentSuffixOf st = none →
      get_next_offer_number year nowTs st = ("AN" ++ nowTs, st) := by
  intro year nowTs st h
  unfold get_next_offer_number
  rw [h]

/-- C10, witness: a store holding a non-numeric suffix string. -/
theorem c10_offer_number_fallback_witness :
    currentSuffixOf (fun k => if k = "offer_number_suffix" then some (vStr "abc") else none)
        = none ∧
      get_next_offer_number 2025 "20250101-120000"
          (fun k => if k = "offer_number_suffix" then some (vStr "abc") else none)
        = ("AN" ++ "20250101-120000",
           fun k => if k = "offer_number_suffix" then some (vStr "abc") else none) :=
  ⟨rfl, c10_offer_number_fallback 2025 "20250101-120000" _ rfl⟩

/-- C7.  Offer-number monotonicity: against a well-behaved SettingsStore
(saved values are returned by subsequent loads — the `Store` model), with
the year held constant, two sequential `_get_next_offer_number` calls whose
starting suffix loads and parses as `cur` produce the offer numbers
`AN{year}-{cur+1:04d}` and `AN{year}-{cur+2:04d}`: each call increments the
stored suffix by exactly one and the two numeric suffixes are strictly
increasing. -/
theorem c7_offer_number_monotonic (year : Nat) (ts1 ts2 : String) (st : Store)
    (cur : Int) (h : currentSuffixOf st = some cur) :
    (get_next_offer_number year ts1 st).1
        = "AN" ++ natToStr year ++ "-" ++ pad4 (cur + 1) ∧
    currentSuffixOf (get_next_offer_number year ts1 st).2 = some (cur + 1) ∧
    (get_next_offer_number year ts2 (get_next_offer_number year ts1 st).2).1
        = "AN" ++ natToStr year ++ "-" ++ pad4 (cur + 2) ∧
    currentSuffixOf
        (get_next_offer_number year ts2 (get_next_offer_number year ts1 st).2).2
        = some (cur + 2) ∧
    cur + 1 < cur + 2 := by
  have h1 : get_next_offer_number year ts1 st =
      ("AN" ++ natToStr year ++ "-" ++ pad4 (cur + 1),
        storeSave st "offer_number_suffix" (vInt (cur + 1))) := by
    unfold get_next_offer_number
    rw [h]
  have h2 : currentSuffixOf (storeSave st "offer_number_suffix" (vInt (cur + 1)))
      = some (cur + 1) := currentSuffixOf_storeSave st (cur + 1)
  have hadd : cur + 1 + 1 = cur + 2 := by ring
  have h3 : get_next_offer_number year ts2 (storeSave st "offer_number_suffix" (vInt (cur + 1))) =
      ("AN" ++ natToStr year ++ "-" ++ pad4 (cur + 2),
        storeSave (storeSave st "offer_number_suffix" (vInt (cur + 1)))
          "offer_number_suffix" (vInt (cur + 2))) := by
    unfold get_next_offer_number
    rw [h2]
    dsimp only
    rw [hadd]
  refine ⟨?_, ?_, ?_, ?_, by omega⟩
  · rw [h1]
  · rw [h1]
    exact h2
  · rw [h1]
    exact congrArg Prod.fst h3
  · rw [h1]
    show currentSuffixOf
        (get_next_offer_number year ts2 (storeSave st "offer_number_suffix" (vInt (cur + 1)))).2
        = some (cur + 2)
    rw [h3]
    exact currentSuffixOf_storeSave _ (cur + 2)

/-- C7, witness: starting from an empty store the default suffix 1000 is
loaded, and the two calls produce `AN2025-1001` and `AN2025-1002`. -/
theorem c7_offer_number_monotonic_witness :
    (get_next_offer_number 2025 "t1" (fun _ => none)).1
        = "AN" ++ natToStr 2025 ++ "-" ++ pad4 (1000 + 1) ∧
    currentSuffixOf (get_next_offer_number 2025 "t1" (fun _ => none)).2
        = some (1000 + 1) ∧
    (get_next_offer_number 2025 "t2"
        (get_next_offer_number 2025 "t1" (fun _ => none)).2).1
        = "AN" ++ natToStr 2025 ++ "-" ++ pad4 (1000 + 2) ∧
    currentSuffixOf (get_next_offer_number 2025 "t2"
        (get_next_offer_number 2025 "t1" (fun _ => none)).2).2
        = some (1000 + 2) ∧
    (1000 : Int) + 1 < 1000 + 2 :=
  c7_offer_number_monotonic 2025 "t1" "t2" (fun _ => none) 1000 (by decide)

/-- C4.  Chart selection gating: for every key of the fixed chart catalog,
a titled chart image block is emitted only if the key is both in the
caller's selection and mapped to non-empty `bytes` in AnalysisResults; a
key present in AnalysisResults but not selected is never emitted, and a
selected key whose AnalysisResults entry is `None` is never emitted. -/
theorem c4_chart_selection_gating :
    ∀ (selected : List String) (ar : PyDict) (k : String),
      k ∈ chartsConfigKeys →
      ((k ∈ vizEmittedChartKeys selected ar →
          k ∈ selected ∧ ∃ bs, ar k = some (vBytes bs) ∧ bs ≠ []) ∧
       (k ∉ selected → k ∉ vizEmittedChartKeys selected ar) ∧
       (ar k = some vNone → k ∉ vizEmittedChartKeys selected ar)) := by
  intro selected ar k _
  refine ⟨?_, ?_, ?_⟩
  · intro hmem
    have hgate : chartEmitGate selected ar k = true := List.of_mem_filter hmem
    unfold chartEmitGate at hgate
    simp only [Bool.and_eq_true, decide_eq_true_eq] at hgate
    obtain ⟨⟨hsel, htruthy⟩, hbytes⟩ := hgate
    refine ⟨hsel, ?_⟩
    cases har : ar k with
    | none =>
      rw [har] at hbytes
      simp [pyIsBytes] at hbytes
    | some w =>
      rw [har] at htruthy hbytes
      simp only [Option.getD_some] at htruthy hbytes
      cases w with
      | vBytes bs =>
        refine ⟨bs, rfl, ?_⟩
        simp only [pyTruthy, Bool.not_eq_true'] at htruthy
        exact fun hnil => by simp [hnil] at htruthy
      | vNone => simp [pyIsBytes] at hbytes
      | vInt i => simp [pyIsBytes] at hbytes
      | vFloat q => simp [pyIsBytes] at hbytes
      | vNaN => simp [pyIsBytes] at hbytes
      | vInf => simp [pyIsBytes] at hbytes
      | vStr s => simp [pyIsBytes] at hbytes
      | vList xs => simp [pyIsBytes] at hbytes
  · intro hnsel hmem
    have hgate : chartEmitGate selected ar k = true := List.of_mem_filter hmem
    unfold chartEmitGate at hgate
    simp only [Bool.and_eq_true, decide_eq_true_eq] at hgate
    exact hnsel hgate.1.1
  · intro har hmem
    have hgate : chartEmitGate selected ar k = true := List.of_mem_filter hmem
    unfold chartEmitGate at hgate
    rw [har] at hgate
    simp [pyTruthy] at hgate

/-- C4, witness: with `break_even_chart_bytes` selected and holding bytes,
`pv_usage_pie_chart_bytes` selected but `None`, and
`cost_projection_chart_bytes` holding bytes but unselected. -/
theorem c4_chart_selection_gating_witness :
    ("break_even_chart_bytes" ∈ c4wSelected ∧
      ∃ bs, c4wAr "break_even_chart_bytes" = some (vBytes bs) ∧ bs ≠ []) ∧
    "cost_projection_chart_bytes" ∉ vizEmittedChartKeys c4wSelected c4wAr ∧
    "pv_usage_pie_chart_bytes" ∉ vizEmittedChartKeys c4wSelected c4wAr := by
  refine ⟨?_, ?_, ?_⟩
  · exact (c4_chart_selection_gating c4wSelected c4wAr "break_even_chart_bytes"
      (by decide)).1 (by decide)
  · exact (c4_chart_selection_gating c4wSelected c4wAr "cost_projection_chart_bytes"
      (by decide)).2.1 (by decide)
  · exact (c4_chart_selection_gating c4wSelected c4wAr "pv_usage_pie_chart_bytes"
      (by decide)).2.2 rfl

/-- C8.  The appendix merge is never destructive to the base document:
with `include_all_documents` off, or with no collected appendix paths, or
when the built base PDF cannot be re-read, the merge phase returns the base
bytes unchanged; and a single unreadable appendix file contributes no pages
while leaving the pages appended from the other files untouched. -/
theorem c8_appendix_merge_nondestructive :
    (∀ (Page : Type) (pypdf : Bool) (main : List Nat) (paths : List String)
        (rm : List Nat → Except Unit (List Page)) (rp : String → Except Unit (List Page))
        (w : List Page → Except Unit (List Nat)),
        main ≠ [] →
        mergeAppendixPhase false pypdf main paths rm rp w = some main) ∧
    (∀ (Page : Type) (incl pypdf : Bool) (main : List Nat)
        (rm : List Nat → Except Unit (List Page)) (rp : String → Except Unit (List Page))
        (w : List Page → Except Unit (List Nat)),
        main ≠ [] →
        mergeAppendixPhase incl pypdf main [] rm rp w = some main) ∧
    (∀ (Page : Type) (incl pypdf : Bool) (main : List Nat) (paths : List String)
        (rm : List Nat → Except Unit (List Page)) (rp : String → Except Unit (List Page))
        (w : List Page → Except Unit (List Nat)),
        main ≠ [] → rm main = Except.error () →
        mergeAppendixPhase incl pypdf main paths rm rp w = some main) ∧
    (∀ (Page : Type) (rp : String → Except Unit (List Page)) (bad : String)
        (l1 l2 : List String),
        rp bad = Except.error () →
        collectAppendPages rp (l1 ++ bad :: l2) = collectAppendPages rp (l1 ++ l2)) := by
  refine ⟨?_, ?_, ?_, ?_⟩
  · intro Page pypdf main paths rm rp w hmain
    have hne : main.isEmpty = false := by
      cases main with
      | nil => exact absurd rfl hmain
      | cons a t => rfl
    unfold mergeAppendixPhase
    rw [hne]
    simp
  · intro Page incl pypdf main rm rp w hmain
    have hne : main.isEmpty = false := by
      cases main with
      | nil => exact absurd rfl hmain
      | cons a t => rfl
    unfold mergeAppendixPhase
    rw [hne]
    cases h2 : incl && pypdf <;> simp
  · intro Page incl pypdf main paths rm rp w hmain hrm
    have hne : main.isEmpty = false := by
      cases main with
      | nil => exact absurd rfl hmain
      | cons a t => rfl
    unfold mergeAppendixPhase
    rw [hne]
    cases h2 : incl && pypdf with
    | false => simp
    | true =>
      cases h3 : paths.isEmpty <;> simp [hrm]
  · intro Page rp bad l1 l2 hbad
    induction l1 with
    | nil => simp [collectAppendPages, hbad]
    | cons x t ih => simp [collectAppendPages, ih]

/-- C8, witness: concrete merge runs with `Page := Nat`. -/
theorem c8_appendix_merge_nondestructive_witness :
    (mergeAppendixPhase false true [7] ["a"] (fun _ => Except.ok ([0] : List Nat))
        (fun _ => Except.ok [1]) (fun pgs => Except.ok pgs) = some [7]) ∧
    (mergeAppendixPhase true true [7] [] (fun _ => Except.ok ([0] : List Nat))
        (fun _ => Except.ok [1]) (fun pgs => Except.ok pgs) = some [7]) ∧
    (mergeAppendixPhase true true [7] ["a"] (fun _ => Except.error ())
        (fun _ => Except.ok ([1] : List Nat)) (fun pgs => Except.ok pgs) = some [7]) ∧
    (collectAppendPages (fun p => if p = "bad" then Except.error () else Except.ok [2])
        (["a"] ++ "bad" :: ["c"]) =
      collectAppendPages (fun p => if p = "bad" then Except.error () else Except.ok [2])
        (["a"] ++ ["c"])) := by
  refine ⟨?_, ?_, ?_, ?_⟩
  · exact (c8_appendix_merge_nondestructive.1) Nat true [7] ["a"] _ _ _ (by decide)
  · exact (c8_appendix_merge_nondestructive.2.1) Nat true true [7] _ _ _ (by decide)
  · exact (c8_appendix_merge_nondestructive.2.2.1) Nat true true [7] ["a"] _ _ _
      (by decide) rfl
  · exact (c8_appendix_merge_nondestructive.2.2.2) Nat _ "bad" ["a"] ["c"] rfl

/-- C6.  Salutation generation: for `{salutation: "Frau", first_name:
"Anna", last_name: "Muster"}` the line is the female-polite prefix followed
by the full name, ending exactly in `"Anna Muster,"`; for `{salutation:
"Familie", last_name: "Schmidt"}` it is the family-polite prefix ending in
`"Familie Schmidt,"` (the localized prefix text carries the word
"Familie"); and for a customer with all fields empty it is the generic
fallback salutation — for every translation dict. -/
theorem c6_salutation_lines :
    ∀ texts : Texts,
      generate_complete_salutation_line cdFrau texts =
        get_text texts "salutation_female_polite" (some "Sehr geehrte/r")
          ++ " " ++ "Anna Muster" ++ "," ∧
      generate_complete_salutation_line cdFamilie texts =
        get_text texts "salutation_family_polite" (some "Sehr geehrte Familie")
          ++ " " ++ "Schmidt" ++ "," ∧
      generate_complete_salutation_line cdEmpty texts =
        get_text texts "salutation_generic_fallback"
          (some "Sehr geehrte Damen und Herren,") := by
  intro texts
  refine ⟨rfl, rfl, rfl⟩

/-- A row produced further down the item list is also in the table built
from a longer item list (the loop only ever appends). -/
theorem mem_prepareCostTableAux_cons (ar : PyDict) (texts : Texts) (x : CostItem)
    (l : List CostItem) (row : List Para) (h : row ∈ prepareCostTableAux ar texts l) :
    row ∈ prepareCostTableAux ar texts (x :: l) := by
  cases hx : ar x.1 with
  | none => simpa [prepareCostTableAux, hx] using h
  | some w =>
    simp only [prepareCostTableAux, hx]
    split
    · exact h
    · split
      · exact h
      · exact List.mem_cons_of_mem _ h

/-- C3.  Cost-row zero suppression: for every cost item of the fixed
ordered catalog whose AnalysisResults value is exactly `0.0`, the rendered
row is present in the cost table when the item's result key is in the
always-show set, and the item contributes nothing at all when it is not
(the table equals the one built with the item deleted from the catalog). -/
theorem c3_cost_zero_suppression :
    ∀ (ar : PyDict) (texts : Texts) (l1 l2 : List CostItem) (item : CostItem) (v : PyVal),
      cost_items_ordered_pdf = l1 ++ item :: l2 →
      ar item.1 = some v → pyEqZeroFloat v = true →
      ((item.1 ∈ alwaysShowCostKeys →
          renderCostItem texts item v ∈ prepare_cost_table_for_pdf ar texts) ∧
       (item.1 ∉ alwaysShowCostKeys →
          prepare_cost_table_for_pdf ar texts = prepareCostTableAux ar texts (l1 ++ l2))) := by
  intro ar texts l1 l2 item v hsplit har hz
  have hvnotnone : pyIsNone v = false := by
    cases v <;> first | rfl | (exfalso; simp [pyEqZeroFloat] at hz)
  constructor
  · intro hmem
    unfold prepare_cost_table_for_pdf
    rw [hsplit]
    clear hsplit
    induction l1 with
    | nil =>
      simp only [List.nil_append, prepareCostTableAux, har]
      rw [if_neg (by simp [hvnotnone])]
      rw [if_neg (by simp [hmem])]
      exact List.mem_cons_self _ _
    | cons x t ih =>
      exact mem_prepareCostTableAux_cons ar texts x _ _ ih
  · intro hnmem
    unfold prepare_cost_table_for_pdf
    rw [hsplit]
    clear hsplit
    induction l1 with
    | nil =>
      simp only [List.nil_append, prepareCostTableAux, har]
      rw [if_neg (by simp [hvnotnone])]
      rw [if_pos (by simp [hz, hnmem])]
    | cons x t ih =>
      cases hx : ar x.1 with
      | none =>
        simp only [List.cons_append, prepareCostTableAux, hx]
        exact ih
      | some w =>
        simp only [List.cons_append, prepareCostTableAux, hx]
        split
        · exact ih
        · split
          · exact ih
          · exact congrArg (List.cons (renderCostItem texts x w)) ih

/-- C3, witness: with `subtotal_netto = 0.0` (always-show, row present) and
`cost_misc_netto = 0.0` (suppressible, contributes nothing). -/
theorem c3_cost_zero_suppression_witness :
    renderCostItem noTexts ("subtotal_netto", "subtotal_netto", true, "TableBoldRight")
        (vFloat ⟨0, 1⟩) ∈ prepare_cost_table_for_pdf c3wAr noTexts ∧
    prepare_cost_table_for_pdf c3wAr noTexts =
      prepareCostTableAux c3wAr noTexts
        [("base_matrix_price_netto", "base_matrix_price_netto", true, "TableText"),
         ("cost_modules_aufpreis_netto", "cost_modules", true, "TableText"),
         ("cost_inverter_aufpreis_netto", "cost_inverter", true, "TableText"),
         ("cost_storage_aufpreis_product_db_netto", "cost_storage", true, "TableText"),
         ("total_optional_components_cost_netto", "total_optional_components_cost_netto_label", true, "TableText"),
         ("cost_accessories_aufpreis_netto", "cost_accessories_aufpreis_netto", true, "TableText"),
         ("cost_scaffolding_netto", "cost_scaffolding_netto", true, "TableText"),
         ("cost_custom_netto", "cost_custom_netto", true, "TableText"),
         ("subtotal_netto", "subtotal_netto", true, "TableBoldRight"),
         ("one_time_bonus_eur", "one_time_bonus_eur_label", true, "TableText"),
         ("total_investment_netto", "total_investment_netto", true, "TableBoldRight"),
         ("vat_rate_percent", "vat_rate_percent", false, "TableText"),
         ("total_investment_brutto", "total_investment_brutto", true, "TableBoldRight")] := by
  constructor
  · exact (c3_cost_zero_suppression c3wAr noTexts
      [("base_matrix_price_netto", "base_matrix_price_netto", true, "TableText"),
       ("cost_modules_aufpreis_netto", "cost_modules", true, "TableText"),
       ("cost_inverter_aufpreis_netto", "cost_inverter", true, "TableText"),
       ("cost_storage_aufpreis_product_db_netto", "cost_storage", true, "TableText"),
       ("total_optional_components_cost_netto", "total_optional_components_cost_netto_label", true, "TableText"),
       ("cost_accessories_aufpreis_netto", "cost_accessories_aufpreis_netto", true, "TableText"),
       ("cost_scaffolding_netto", "cost_scaffolding_netto", true, "TableText"),
       ("cost_misc_netto", "cost_misc_netto", true, "TableText"),
       ("cost_custom_netto", "cost_custom_netto", true, "TableText")]
      [("one_time_bonus_eur", "one_time_bonus_eur_label", true, "TableText"),
       ("total_investment_netto", "total_investment_netto", true, "TableBoldRight"),
       ("vat_rate_percent", "vat_rate_percent", false, "TableText"),
       ("total_investment_brutto", "total_investment_brutto", true, "TableBoldRight")]
      ("subtotal_netto", "subtotal_netto", true, "TableBoldRight")
      (vFloat ⟨0, 1⟩) (by decide) rfl (by decide)).1 (by decide)
  · exact (c3_cost_zero_suppression c3wAr noTexts
      [("base_matrix_price_netto", "base_matrix_price_netto", true, "TableText"),
       ("cost_modules_aufpreis_netto", "cost_modules", true, "TableText"),
       ("cost_inverter_aufpreis_netto", "cost_inverter", true, "TableText"),
       ("cost_storage_aufpreis_product_db_netto", "cost_storage", true, "TableText"),
       ("total_optional_components_cost_netto", "total_optional_components_cost_netto_label", true, "TableText"),
       ("cost_accessories_aufpreis_netto", "cost_accessories_aufpreis_netto", true, "TableText"),
       ("cost_scaffolding_netto", "cost_scaffolding_netto", true, "TableText")]
      [("cost_custom_netto", "cost_custom_netto", true, "TableText"),
       ("subtotal_netto", "subtotal_netto", true, "TableBoldRight"),
       ("one_time_bonus_eur", "one_time_bonus_eur_label", true, "TableText"),
       ("total_investment_netto", "total_investment_netto", true, "TableBoldRight"),
       ("vat_rate_percent", "vat_rate_percent", false, "TableText"),
       ("total_investment_brutto", "total_investment_brutto", true, "TableBoldRight")]
      ("cost_misc_netto", "cost_misc_netto", true, "TableText")
      (vFloat ⟨0, 1⟩) (by decide) rfl (by decide)).2 (by decide)

theorem natToStr_ne_dots (n : Nat) : natToStr n ≠ "..." := by
  intro h
  have hmem : '.' ∈ natChars n := by
    have h2 : natChars n = ['.', '.', '.'] := by
      have h3 := congrArg String.data h
      simpa [natToStr] using h3
    rw [h2]
    simp
  have := natChars_all_digit n '.' hmem
  exact absurd this (by decide)

/-- The display-series computation never raises on a list value. -/
theorem simDisplayValue_vList_isSome (xs : List PyVal) (p : Int) :
    ∃ d, simDisplayValue (vList xs) p = some d := by
  unfold simDisplayValue
  split
  · simp only [pyLen]
    split
    · exact ⟨_, rfl⟩
    · exact ⟨_, rfl⟩
  · exact ⟨_, rfl⟩

/-- C2.  Simulation-table truncation with `num_years_to_show = 10`: an
effective period of 15 with a 15-element cumulative series yields header +
10 data rows + 1 ellipsis row (12 rows); an effective period of 8 yields
header + 8 data rows (9 rows) with no ellipsis row; an effective period of
0 yields the header row only (and the input dict is returned untouched). -/
theorem c2_simulation_table_truncation :
    (∀ (ar : PyDict) (texts : Texts) (xs : List PyVal),
      ar "simulation_period_years_effective" = some (vInt 15) →
      ar "cumulative_cash_flows_sim" = some (vList xs) →
      xs.length = 15 →
      ∃ dataRows ar2,
        prepare_simulation_table_for_pdf ar texts 10 =
          some (simHeaderRow texts :: dataRows ++ [simEllipsisRow], ar2) ∧
        dataRows.length = 10 ∧
        (simHeaderRow texts :: dataRows ++ [simEllipsisRow]).length = 12) ∧
    (∀ (ar : PyDict) (texts : Texts),
      ar "simulation_period_years_effective" = some (vInt 8) →
      (ar "cumulative_cash_flows_sim" = none ∨
        ∃ xs, ar "cumulative_cash_flows_sim" = some (vList xs)) →
      ∃ dataRows ar2,
        prepare_simulation_table_for_pdf ar texts 10 =
          some (simHeaderRow texts :: dataRows, ar2) ∧
        dataRows.length = 8 ∧
        (simHeaderRow texts :: dataRows).length = 9 ∧
        simEllipsisRow ∉ simHeaderRow texts :: dataRows) ∧
    (∀ (ar : PyDict) (texts : Texts),
      ar "simulation_period_years_effective" = some (vInt 0) →
      prepare_simulation_table_for_pdf ar texts 10 = some ([simHeaderRow texts], ar)) := by
  refine ⟨?_, ?_, ?_⟩
  · intro ar texts xs h1 h2 hlen
    have hne : xs ≠ [] := by
      intro h
      rw [h] at hlen
      simp at hlen
    unfold prepare_simulation_table_for_pdf
    rw [h1]
    simp only [Option.getD_some, pyToIntTrunc]
    norm_num
    rw [h2]
    simp only [Option.getD_some]
    unfold simDisplayValue
    rw [if_pos (by simp [pyTruthy, hne])]
    simp only [pyLen, hlen]
    norm_num
    omega
  · intro ar texts h1 h2
    unfold prepare_simulation_table_for_pdf
    rw [h1]
    simp only [Option.getD_some, pyToIntTrunc]
    norm_num
    have hdisp : ∃ d, simDisplayValue ((ar "cumulative_cash_flows_sim").getD (vList [])) 8
        = some d := by
      rcases h2 with h | ⟨xs, h⟩
      · rw [h]
        exact simDisplayValue_vList_isSome [] 8
      · rw [h]
        exact simDisplayValue_vList_isSome xs 8
    obtain ⟨d, hd⟩ := hdisp
    rw [hd]
    dsimp only
    refine ⟨_, ⟨_, rfl⟩, by simp, by simp, ?_, ?_⟩
    · intro h
      have hsty := congrArg (fun l => (l.getD 0 (Para.mk "" "")).style) h
      simp [simEllipsisRow, simHeaderRow, simHeaderConfig, List.getD] at hsty
    · intro hmem
      simp only [List.mem_map, List.mem_range] at hmem
      obtain ⟨i, _, hrow⟩ := hmem
      have htxt := congrArg (fun l => (l.getD 0 (Para.mk "" "")).text) hrow
      simp [simDataRow, simEllipsisRow, List.getD] at htxt
      exact natToStr_ne_dots (i + 1) htxt
  · intro ar texts h1
    unfold prepare_simulation_table_for_pdf
    rw [h1]
    simp [pyToIntTrunc]

/-- C2, witness: concrete AnalysisResults dicts with effective periods 15
(15-element series), 8, and 0. -/
theorem c2_simulation_table_truncation_witness :
    (∃ dataRows ar2,
        prepare_simulation_table_for_pdf arSim15 noTexts 10 =
          some (simHeaderRow noTexts :: dataRows ++ [simEllipsisRow], ar2) ∧
        dataRows.length = 10 ∧
        (simHeaderRow noTexts :: dataRows ++ [simEllipsisRow]).length = 12) ∧
    (∃ dataRows ar2,
        prepare_simulation_table_for_pdf arSim8 noTexts 10 =
          some (simHeaderRow noTexts :: dataRows, ar2) ∧
        dataRows.length = 8 ∧
        (simHeaderRow noTexts :: dataRows).length = 9 ∧
        simEllipsisRow ∉ simHeaderRow noTexts :: dataRows) ∧
    prepare_simulation_table_for_pdf arSim0 noTexts 10 =
      some ([simHeaderRow noTexts], arSim0) := by
  refine ⟨?_, ?_, ?_⟩
  · exact c2_simulation_table_truncation.1 arSim15 noTexts
      (List.replicate 15 (vInt 1)) rfl rfl (by simp)
  · exact c2_simulation_table_truncation.2.1 arSim8 noTexts rfl (Or.inl rfl)
  · exact c2_simulation_table_truncation.2.2 arSim0 noTexts rfl

/-- C9, counterexample.  The claim states the simulation-table renderer
always writes `cumulative_cash_flows_sim_display` into the
`analysis_results` dict it receives.  It does not: with an effective
simulation period of 0 the function returns the header-only table before
reaching the write, and the returned dict still has no entry under that
key. -/
theorem c9_display_write_counterexample :
    (prepare_simulation_table_for_pdf arSim0 noTexts 10).map
        (fun r => r.2 "cumulative_cash_flows_sim_display")
      = some none := by
  rfl

theorem dictSet_lookup (d : PyDict) (k : String) (v : PyVal) : dictSet d k v k = some v := by
  simp [dictSet]

/-- C9, amended.  Whenever the effective simulation period parses to a
non-zero integer `p` (so the early header-only return is not taken),
`_prepare_simulation_table_for_pdf` mutates its `analysis_results` argument
by writing `cumulative_cash_flows_sim_display`: the tail of
`cumulative_cash_flows_sim` when that series is a non-empty list of length
exactly `p + 1`, and a list of `p` `None`s otherwise (series present with
another length, or absent).  With period 0 the dict is left unchanged. -/
theorem c9_display_write_amended :
    ∀ (ar : PyDict) (texts : Texts) (n p : Int),
      pyToIntTrunc ((ar "simulation_period_years_effective").getD (vInt 0)) = some p →
      p ≠ 0 →
      ((∀ xs, ar "cumulative_cash_flows_sim" = some (vList xs) → xs ≠ [] →
          (xs.length : Int) = p + 1 →
          (prepare_simulation_table_for_pdf ar texts n).map
              (fun r => r.2 "cumulative_cash_flows_sim_display")
            = some (some (vList (xs.drop 1)))) ∧
       (∀ xs, ar "cumulative_cash_flows_sim" = some (vList xs) →
          (xs = [] ∨ (xs.length : Int) ≠ p + 1) →
          (prepare_simulation_table_for_pdf ar texts n).map
              (fun r => r.2 "cumulative_cash_flows_sim_display")
            = some (some (vList (List.replicate p.toNat vNone)))) ∧
       (ar "cumulative_cash_flows_sim" = none →
          (prepare_simulation_table_for_pdf ar texts n).map
              (fun r => r.2 "cumulative_cash_flows_sim_display")
            = some (some (vList (List.replicate p.toNat vNone))))) := by
  intro ar texts n p hp hpne
  refine ⟨?_, ?_, ?_⟩
  · intro xs hcum hne hlen
    unfold prepare_simulation_table_for_pdf
    rw [hp]
    dsimp only
    rw [if_neg hpne, hcum]
    simp only [Option.getD_some]
    unfold simDisplayValue
    rw [if_pos (by simp [pyTruthy, hne])]
    simp only [pyLen, hlen, if_true]
    dsimp only [pySliceFrom1]
    split
    · simp [dictSet_lookup]
    · simp [dictSet_lookup]
  · intro xs hcum hcase
    unfold prepare_simulation_table_for_pdf
    rw [hp]
    dsimp only
    rw [if_neg hpne, hcum]
    simp only [Option.getD_some]
    unfold simDisplayValue
    rcases hcase with h | h
    · subst h
      rw [if_neg (by simp [pyTruthy])]
      dsimp only
      split
      · simp [dictSet_lookup]
      · simp [dictSet_lookup]
    · by_cases hne : xs = []
      · subst hne
        rw [if_neg (by simp [pyTruthy])]
        dsimp only
        split
        · simp [dictSet_lookup]
        · simp [dictSet_lookup]
      · rw [if_pos (by simp [pyTruthy, hne])]
        simp only [pyLen]
        rw [if_neg h]
        dsimp only
        split
        · simp [dictSet_lookup]
        · simp [dictSet_lookup]
  · intro hcum
    unfold prepare_simulation_table_for_pdf
    rw [hp]
    dsimp only
    rw [if_neg hpne, hcum]
    simp only [Option.getD_none]
    unfold simDisplayValue
    rw [if_neg (by simp [pyTruthy])]
    dsimp only
    split
    · simp [dictSet_lookup]
    · simp [dictSet_lookup]

/-- C9, witness: period 2 with a 3-element cumulative series — the display
entry written into the returned dict is the 2-element tail. -/
theorem c9_display_write_amended_witness :
    (prepare_simulation_table_for_pdf arSimP2 noTexts 10).map
        (fun r => r.2 "cumulative_cash_flows_sim_display")
      = some (some (vList ([vInt 5, vInt 6, vInt 7].drop 1))) :=
  (c9_display_write_amended arSimP2 noTexts 10 2 rfl (by decide)).1
    [vInt 5, vInt 6, vInt 7] rfl (by simp) (by decide)

/-- C5, witness: concrete instantiation with the empty texts dict. -/
theorem c5_na_formatting_idempotent_witness :
    format_kpi_value vNone "€" "not_applicable_short" 2 noTexts
      = get_text noTexts "not_applicable_short" (some "k.A.") ∧
    format_kpi_value (vStr (format_kpi_value vNone "€" "not_applicable_short" 2 noTexts))
        "kWh" "not_applicable_short" 3 noTexts
      = format_kpi_value vNone "€" "not_applicable_short" 2 noTexts :=
  c5_na_formatting_idempotent noTexts "not_applicable_short" "€" "kWh" 2 3

/-- C6, witness: concrete instantiation with the empty texts dict. -/
theorem c6_salutation_lines_witness :
    generate_complete_salutation_line cdFrau noTexts =
      get_text noTexts "salutation_female_polite" (some "Sehr geehrte/r")
        ++ " " ++ "Anna Muster" ++ "," ∧
    generate_complete_salutation_line cdFamilie noTexts =
      get_text noTexts "salutation_family_polite" (some "Sehr geehrte Familie")
        ++ " " ++ "Schmidt" ++ "," ∧
    generate_complete_salutation_line cdEmpty noTexts =
      get_text noTexts "salutation_generic_fallback"
        (some "Sehr geehrte Damen und Herren,") :=
  c6_salutation_lines noTexts
